import Mathlib

/-!
Shallow embedding of the care-navigator web agent
(src/src/services/WebAgentService.ts and src/src/app/api/search/route.ts).

External collaborators (the LLM planner, the progress sink, the remote
browser session's observe/act/extract/screenshot primitives, and real
time) are modelled as oracles: per-call-site outcome values threaded
through otherwise-faithful translations of the control flow.
-/

namespace CareNav

/-- The fixed default of the `maxRetries` field of `WebAgentService`. -/
def maxRetries : Nat := 3

/-- The fixed default of the `actionTimeout` field (milliseconds). -/
def actionTimeout : Nat := 10000

/-- The `maxConsecutiveErrors` constant of `executeSearch`. -/
def maxConsecutiveErrors : Nat := 3

/-- Events of a retry run: an attempt (0-based index) or a backoff wait. -/
inductive RetryEvent where
  | attempt (i : Nat)
  | delay (ms : Nat)
deriving Repr, DecidableEq

/-- `lastError?.message` of `retryOperation`: a null `lastError` renders as
the string "undefined" in the template literal. -/
def lastMsg : Option String → String
  | none => "undefined"
  | some m => m

/-- Worker for `retryOperation`: the fuel is the remaining attempt budget,
`i` the 0-based index of the next attempt, `last` the last error seen.
The state `σ` threads mutable context touched by the operation (the
action history for planning, the dispatch log for acting). After each
failed attempt the code waits `1000 * (i + 1)` ms; the wait is recorded
as a `RetryEvent.delay`. -/
def retryGo {σ α : Type} (op : Nat → σ → Except String α × σ) (errorMessage : String) :
    Nat → Nat → Option String → σ → Except String α × σ × List RetryEvent
  | 0, _, last, s => (Except.error (errorMessage ++ ": " ++ lastMsg last), s, [])
  | n + 1, i, _, s =>
    match op i s with
    | (Except.ok a, s1) => (Except.ok a, s1, [RetryEvent.attempt i])
    | (Except.error e, s1) =>
      let rest := retryGo op errorMessage n (i + 1) (some e) s1
      (rest.1, rest.2.1, RetryEvent.attempt i :: RetryEvent.delay (1000 * (i + 1)) :: rest.2.2)

/-- `retryOperation(operation, errorMessage)`: run up to `mr` attempts,
waiting a linear backoff after each failure, and throw the composite
error once all attempts have failed. -/
def retryOperation {σ α : Type} (mr : Nat) (op : Nat → σ → Except String α × σ)
    (errorMessage : String) (s : σ) : Except String α × σ × List RetryEvent :=
  retryGo op errorMessage mr 0 none s

/-- Count of attempt events in a retry trace. -/
def countAttempts : List RetryEvent → Nat
  | [] => 0
  | RetryEvent.attempt _ :: r => countAttempts r + 1
  | RetryEvent.delay _ :: r => countAttempts r

/-- The `tool` enumeration of `ActionSchema`. -/
inductive Tool where
  | GOTO | ACT | EXTRACT | OBSERVE | CLOSE | WAIT | NAVBACK
deriving Repr, DecidableEq

/-- Rendering of a tool tag into the action string. -/
def toolStr : Tool → String
  | Tool.GOTO => "GOTO"
  | Tool.ACT => "ACT"
  | Tool.EXTRACT => "EXTRACT"
  | Tool.OBSERVE => "OBSERVE"
  | Tool.CLOSE => "CLOSE"
  | Tool.WAIT => "WAIT"
  | Tool.NAVBACK => "NAVBACK"

/-- A schema-validated LLM planning response (`ActionSchema`). -/
structure PlannerReply where
  text : String
  reasoning : String
  tool : Tool
  instruction : String

/-- Oracle for one attempt inside `getNextAction`: the outcome of the
`generateObject` call, and the outcome of the awaited `onAction` sink
call (consulted only when the LLM call succeeded). -/
structure PlanAttempt where
  llm : Except String PlannerReply
  sink : Except String Unit

/-- One attempt of the operation retried by `getNextAction`: on LLM
success the formatted action is pushed onto the history, then the sink
is awaited; a sink failure fails the attempt but the push remains. -/
def planOp (attempts : Nat → PlanAttempt) :
    Nat → List String → Except String String × List String :=
  fun i hist =>
    match (attempts i).llm with
    | Except.error e => (Except.error e, hist)
    | Except.ok r =>
      let action := toolStr r.tool ++ ": " ++ r.instruction
      let hist1 := hist ++ [action]
      match (attempts i).sink with
      | Except.ok _ => (Except.ok action, hist1)
      | Except.error e => (Except.error e, hist1)

/-- `getNextAction`: the planning step, wrapped in `retryOperation` with
the label used in the source. Returns the result, the new action
history, and the retry trace. -/
def getNextAction (mr : Nat) (attempts : Nat → PlanAttempt) (hist : List String) :
    Except String String × List String × List RetryEvent :=
  retryOperation mr (planOp attempts) "Failed to get next action from LLM" hist

/-- Substring test on character lists. -/
def containsSub : List Char → List Char → Bool
  | [], pat => pat.isEmpty
  | c :: t, pat => List.isPrefixOf pat (c :: t) || containsSub t pat

/-- The completion check of `executeSearch`:
`nextAction.toLowerCase().includes('complete') ||
 nextAction.toLowerCase().includes('finished')` — lowercasing modelled
character-wise. -/
def isCompletionAction (a : String) : Bool :=
  containsSub (a.data.map Char.toLower) "complete".data
  || containsSub (a.data.map Char.toLower) "finished".data

/-- Oracle for one `page.act` call inside `executeAction`: `none` if the
call never settles, `some (t, r)` if it settles at time `t` ms with
result `r`. -/
def ActOracle : Type := Nat → Option (Nat × Except String Unit)

/-- The `Promise.race` of `executeAction`: the act call wins if it
settles strictly before the timeout fires; otherwise the timer rejects
with the distinct timeout error at the timeout instant. Returns the
outcome and the time at which the race settled. -/
def raceResult (act : Option (Nat × Except String Unit)) (timeout : Nat) :
    Except String Unit × Nat :=
  match act with
  | none => (Except.error "Action timeout", timeout)
  | some (t, r) => if t < timeout then (r, t) else (Except.error "Action timeout", timeout)

/-- One attempt of the operation retried by `executeAction`: dispatch the
same instruction to `page.act` and race it against the timeout. The
state logs each dispatched instruction. -/
def actOp (acts : ActOracle) (action : String) (timeout : Nat) :
    Nat → List String → Except String Unit × List String :=
  fun i dispatched => ((raceResult (acts i) timeout).1, dispatched ++ [action])

/-- `executeAction`: the act step, wrapped in `retryOperation` with the
label used in the source. Returns the result, the list of dispatched
instructions (one per attempt), and the retry trace. -/
def executeAction (mr timeout : Nat) (acts : ActOracle) (action : String) :
    Except String Unit × List String × List RetryEvent :=
  retryOperation mr (actOp acts action timeout) ("Failed to execute action: " ++ action) []

/-- Oracle for one iteration of the agent loop: outcomes of the
`page.observe` call, the planner attempts, the act attempts, and the
diagnostic `page.screenshot` taken on the error path. -/
structure IterOracle where
  observe : Except String String
  plan : Nat → PlanAttempt
  act : ActOracle
  screenshot : Except String Unit

/-- Mutable state of one search session as the loop runs. -/
structure LoopState where
  history : List String
  consecutiveErrors : Nat
  planCalls : Nat
  acted : List String
  screenshots : Nat
deriving Repr, DecidableEq

/-- State at loop entry: empty history, zero error counter. -/
def initialLoopState : LoopState :=
  { history := [], consecutiveErrors := 0, planCalls := 0, acted := [], screenshots := 0 }

/-- Outcome of the `try` part of one loop iteration. -/
inductive TryOutcome where
  | normal
  | breakLoop
deriving Repr, DecidableEq

/-- The `try` block of one iteration of the `while (true)` loop:
observe, plan (recording the history mutation even when planning
fails), check the completion marker, execute, and reset the error
counter on success. -/
def iterBody (mr t : Nat) (o : IterOracle) (s : LoopState) :
    Except String TryOutcome × LoopState :=
  match o.observe with
  | Except.error e => (Except.error e, s)
  | Except.ok _ =>
    match getNextAction mr o.plan s.history with
    | (Except.error e, h1, _) => (Except.error e, { s with history := h1 })
    | (Except.ok nextAction, h1, _) =>
      let s1 := { s with history := h1, planCalls := s.planCalls + 1 }
      if isCompletionAction nextAction then
        (Except.ok TryOutcome.breakLoop, s1)
      else
        match executeAction mr t o.act nextAction with
        | (Except.error e, ds, _) => (Except.error e, { s1 with acted := s1.acted ++ ds })
        | (Except.ok _, ds, _) =>
          (Except.ok TryOutcome.normal,
            { s1 with acted := s1.acted ++ ds, consecutiveErrors := 0 })

/-- Result of one full iteration (try plus catch). -/
inductive StepResult where
  | next (s : LoopState)
  | toExtract (s : LoopState)
  | fatal (msg : String) (s : LoopState)
deriving Repr, DecidableEq

/-- One full iteration: on an error, increment the consecutive-error
counter, abort fatally at the threshold, otherwise take the diagnostic
screenshot — whose own failure propagates out of the catch block — and
continue to the next observation. -/
def stepIter (mr t mce : Nat) (o : IterOracle) (s : LoopState) : StepResult :=
  match iterBody mr t o s with
  | (Except.ok TryOutcome.breakLoop, s1) => StepResult.toExtract s1
  | (Except.ok TryOutcome.normal, s1) => StepResult.next s1
  | (Except.error _, s1) =>
    let s2 := { s1 with consecutiveErrors := s1.consecutiveErrors + 1 }
    if mce ≤ s2.consecutiveErrors then
      StepResult.fatal "Too many consecutive errors" s2
    else
      match o.screenshot with
      | Except.error e2 => StepResult.fatal e2 s2
      | Except.ok _ => StepResult.next { s2 with screenshots := s2.screenshots + 1 }

/-- Outcome of running the loop on a finite oracle trace. `fuelOut`
marks a run whose oracle trace ended before the loop did (the source
loop has no iteration ceiling). -/
inductive LoopOutcome where
  | extract (s : LoopState)
  | fatal (msg : String) (s : LoopState)
  | fuelOut (s : LoopState)

/-- The `while (true)` loop over a finite trace of iteration oracles. -/
def runLoop (mr t mce : Nat) : List IterOracle → LoopState → LoopOutcome
  | [], s => LoopOutcome.fuelOut s
  | o :: rest, s =>
    match stepIter mr t mce o s with
    | StepResult.next s1 => runLoop mr t mce rest s1
    | StepResult.toExtract s1 => LoopOutcome.extract s1
    | StepResult.fatal m s1 => LoopOutcome.fatal m s1

/-- The state carried by a loop outcome. -/
def loopFinalState : LoopOutcome → LoopState
  | LoopOutcome.extract s => s
  | LoopOutcome.fatal _ s => s
  | LoopOutcome.fuelOut s => s

/-- The state carried by a step result. -/
def stepState : StepResult → LoopState
  | StepResult.next s => s
  | StepResult.toExtract s => s
  | StepResult.fatal _ s => s

/-- A provider record of `ProviderSchema`. -/
structure Provider where
  name : String
  specialty : String
  address : String
  phone : Option String
deriving Repr, DecidableEq

/-- Oracle for one `executeSearch` run: the initial `page.goto`, the
iteration oracles, and the joint outcome of `page.extract` plus the
`SearchResultsSchema.parse` validation. -/
structure SearchOracle where
  goto : Except String Unit
  iters : List IterOracle
  extract : Except String (List Provider)

/-- Observable outcome of one `executeSearch` run: the value returned or
error thrown, the final loop state, whether `page.extract` was reached,
and how many times `this.close()` ran (the `finally` block). -/
structure SearchRun where
  result : Except String (List Provider)
  finalState : LoopState
  extractInvoked : Bool
  closeCalls : Nat
deriving Repr

/-- `executeSearch`: goto, the loop, extraction on break, an outer catch
that rethrows, and a `finally` that closes the session. `none` when the
oracle trace ran out before the loop exited (a run still in flight
never reaches the `finally`). -/
def executeSearch (mr t mce : Nat) (oracle : SearchOracle) : Option SearchRun :=
  match oracle.goto with
  | Except.error e =>
    some { result := Except.error e, finalState := initialLoopState,
           extractInvoked := false, closeCalls := 1 }
  | Except.ok _ =>
    match runLoop mr t mce oracle.iters initialLoopState with
    | LoopOutcome.fuelOut _ => none
    | LoopOutcome.fatal m s =>
      some { result := Except.error m, finalState := s,
             extractInvoked := false, closeCalls := 1 }
    | LoopOutcome.extract s =>
      some { result := oracle.extract, finalState := s,
             extractInvoked := true, closeCalls := 1 }

/-- `init`: a Stagehand initialization failure is caught and rethrown as
the fixed error; there is no cleanup in `init`. -/
def initModel (stagehandInit : Except String Unit) : Except String Unit :=
  match stagehandInit with
  | Except.error _ => Except.error "Failed to initialize web agent"
  | Except.ok _ => Except.ok ()

/-- The search process of the route handler: `await webAgent.init()`
then `await webAgent.executeSearch()`. An `init` failure is thrown
before `executeSearch` starts, so the session close count is 0 on that
path. -/
def runSearchProcess (stagehandInit : Except String Unit) (mr t mce : Nat)
    (oracle : SearchOracle) : Option (Except String (List Provider) × Nat) :=
  match initModel stagehandInit with
  | Except.error e => some (Except.error e, 0)
  | Except.ok _ =>
    match executeSearch mr t mce oracle with
    | none => none
    | some run => some (run.result, run.closeCalls)

/-- An action string of the shape emitted by the planner. -/
def wellFormedAction (a : String) : Prop :=
  ∃ t instr, a = toolStr t ++ ": " ++ instr

/-- JS value of a location object in the request body: `lat`/`lng` are
numbers when present (modelled as rationals), `address` a string when
present. -/
structure JsLocation where
  lat : Option ℚ
  lng : Option ℚ
  address : Option String

/-- JS value of the parsed request body, with possibly-absent fields. -/
structure JsBody where
  query : Option String
  provider : Option String
  location : Option JsLocation

/-- JS truthiness of a possibly-absent number: `0` (and absence) is falsy. -/
def truthyNum : Option ℚ → Bool
  | none => false
  | some q => !decide (q = 0)

/-- JS truthiness of a possibly-absent string: the empty string (and
absence) is falsy. -/
def truthyStr : Option String → Bool
  | none => false
  | some s => !decide (s = "")

/-- JS truthiness of a possibly-absent object: any object is truthy. -/
def truthyLoc : Option JsLocation → Bool
  | none => false
  | some _ => true

/-- The keys of `PROVIDER_URLS` in src/src/constants/providers.ts. -/
def PROVIDER_KEYS : List String := ["unitedhealthcare", "aetna", "cigna"]

/-- The provider string as used in the membership check (it is a truthy
string whenever that check is reached). -/
def optStr : Option String → String
  | none => ""
  | some s => s

/-- Result record of `validateRequest`. -/
structure ValidationResult where
  isValid : Bool
  error : Option String
deriving Repr, DecidableEq

/-- `validateRequest` of the search route: presence of the top-level
fields, truthiness of the location fields, then provider-key
membership. -/
def validateRequest (body : JsBody) : ValidationResult :=
  if !truthyStr body.query || !truthyStr body.provider || !truthyLoc body.location then
    { isValid := false,
      error := some "Missing required fields: query, provider, and location are required" }
  else
    match body.location with
    | none =>
      { isValid := false,
        error := some "Missing required fields: query, provider, and location are required" }
    | some loc =>
      if !truthyNum loc.lat || !truthyNum loc.lng || !truthyStr loc.address then
        { isValid := false,
          error := some "Invalid location: latitude, longitude, and address are required" }
      else if !(PROVIDER_KEYS.contains (optStr body.provider)) then
        { isValid := false, error := some "Invalid insurance provider selected" }
      else
        { isValid := true, error := none }

/-- The loop-state invariant tying the action history to completed
planning calls: one well-formed entry per completed call. -/
def stateGood (s : LoopState) : Prop :=
  s.history.length = s.planCalls ∧ ∀ a ∈ s.history, wellFormedAction a

/-- Planner-attempt oracle whose first attempt has a successful LLM call
but a failing sink, and whose later attempts fully succeed. -/
def dupAttempts : Nat → PlanAttempt :=
  fun i =>
    if i = 0 then
      { llm := Except.ok { text := "", reasoning := "", tool := Tool.ACT,
                           instruction := "click" },
        sink := Except.error "write failed" }
    else
      { llm := Except.ok { text := "", reasoning := "", tool := Tool.ACT,
                           instruction := "click" },
        sink := Except.ok () }

/-- Planner-attempt oracle whose LLM call always succeeds but whose sink
call always fails. -/
def sinkFailPlan : Nat → PlanAttempt :=
  fun _ =>
    { llm := Except.ok { text := "", reasoning := "", tool := Tool.ACT,
                         instruction := "click" },
      sink := Except.error "stream closed" }

/-- Iteration oracle whose observation fails and whose diagnostic
screenshot succeeds. -/
def cwObserveFail : IterOracle :=
  { observe := Except.error "observe failed",
    plan := fun _ => { llm := Except.error "llm down", sink := Except.ok () },
    act := fun _ => none,
    screenshot := Except.ok () }

/-- Iteration oracle whose observation fails and whose diagnostic
screenshot also fails. -/
def oShotFail : IterOracle :=
  { observe := Except.error "observe failed",
    plan := fun _ => { llm := Except.error "llm down", sink := Except.ok () },
    act := fun _ => none,
    screenshot := Except.error "screenshot failed" }

/-- Iteration oracle whose planner immediately yields a completion
action. -/
def oComplete : IterOracle :=
  { observe := Except.ok "results page",
    plan := fun _ =>
      { llm := Except.ok { text := "done", reasoning := "goal met",
                           tool := Tool.CLOSE, instruction := "Search complete" },
        sink := Except.ok () },
    act := fun _ => none,
    screenshot := Except.ok () }

/-- Iteration oracle with a succeeding observation but a persistently
failing progress sink. -/
def oSinkIter : IterOracle :=
  { observe := Except.ok "page", plan := sinkFailPlan,
    act := fun _ => none, screenshot := Except.ok () }

/-- Search oracle whose initial navigation fails. -/
def trivOracle : SearchOracle :=
  { goto := Except.error "goto failed", iters := [], extract := Except.ok [] }

/-- Search oracle with a single iteration whose error-path screenshot
fails. -/
def oracleShot : SearchOracle :=
  { goto := Except.ok (), iters := [oShotFail], extract := Except.ok [] }

/-- Every instruction dispatched by the retried act operation is the
same planned action string. -/
theorem actRetry_dispatch_all (acts : ActOracle) (action : String) (timeout : Nat)
    (msg : String) :
    ∀ (n i : Nat) (last : Option String) (s : List String),
      (s.all fun x => x == action) = true →
      (((retryGo (actOp acts action timeout) msg n i last s).2.1).all
        fun x => x == action) = true := by
  intro n
  induction n with
  | zero => intro i last s hs; simpa [retryGo] using hs
  | succ n ih =>
    intro i last s hs
    have hs2 : ((s ++ [action]).all fun x => x == action) = true := by
      simp [List.all_append, hs]
    cases hr : (raceResult (acts i) timeout).1 with
    | ok u => simpa [retryGo, actOp, hr] using hs2
    | error e => simpa [retryGo, actOp, hr] using ih (i + 1) (some e) (s ++ [action]) hs2

/-- C5: with maxRetries = 3, an operation that fails on every attempt is
invoked exactly 3 times, a linear backoff wait of 1000·(attempt number)
ms follows each failure, and the final error is the label joined with
the last underlying error message. -/
theorem retry_exhaustion_three_attempts (msgs : Nat → String) (label : String) :
    retryOperation maxRetries
        (fun i (_ : Unit) => ((Except.error (msgs i) : Except String Unit), ())) label () =
      (Except.error (label ++ ": " ++ msgs 2), (),
        [RetryEvent.attempt 0, RetryEvent.delay 1000, RetryEvent.attempt 1,
         RetryEvent.delay 2000, RetryEvent.attempt 2, RetryEvent.delay 3000])
    ∧ countAttempts (retryOperation maxRetries
        (fun i (_ : Unit) => ((Except.error (msgs i) : Except String Unit), ())) label ()).2.2
      = 3 :=
  ⟨rfl, rfl⟩

/-- C9: after the final failed attempt the Retry Executor still waits the
full backoff delay of 1000·maxRetries = 3000 ms — the trace of an
always-failing run ends with that wait — and only then fails with the
composite error. -/
theorem retry_waits_after_final_failure (msgs : Nat → String) (label : String) :
    ((retryOperation maxRetries
        (fun i (_ : Unit) => ((Except.error (msgs i) : Except String Unit), ())) label ()).2.2)
      = [RetryEvent.attempt 0, RetryEvent.delay (1000 * 1), RetryEvent.attempt 1,
         RetryEvent.delay (1000 * 2), RetryEvent.attempt 2,
         RetryEvent.delay (1000 * maxRetries)]
    ∧ ((retryOperation maxRetries
        (fun i (_ : Unit) => ((Except.error (msgs i) : Except String Unit), ())) label ()).2.2).getLast?
      = some (RetryEvent.delay (1000 * maxRetries))
    ∧ (retryOperation maxRetries
        (fun i (_ : Unit) => ((Except.error (msgs i) : Except String Unit), ())) label ()).1
      = Except.error (label ++ ": " ++ msgs 2) :=
  ⟨rfl, rfl, rfl⟩

/-- C6: when the underlying browser call never settles, the race of
`executeAction` rejects at the configured timeout (default 10000 ms)
with the distinct timeout error; the Retry Executor then re-attempts
the same instruction — every dispatched instruction equals the planned
action, and no new plan is produced — before failing with the composite
error. -/
theorem action_timeout_race_and_retry (action : String) :
    raceResult none actionTimeout = (Except.error "Action timeout", actionTimeout)
    ∧ executeAction maxRetries actionTimeout (fun _ => none) action =
        (Except.error ("Failed to execute action: " ++ action ++ ": " ++ "Action timeout"),
         [action, action, action],
         [RetryEvent.attempt 0, RetryEvent.delay 1000, RetryEvent.attempt 1,
          RetryEvent.delay 2000, RetryEvent.attempt 2, RetryEvent.delay 3000])
    ∧ ∀ acts : ActOracle,
        (((executeAction maxRetries actionTimeout acts action).2.1).all
          fun x => x == action) = true := by
  refine ⟨rfl, rfl, fun acts => ?_⟩
  exact actRetry_dispatch_all acts action actionTimeout _ maxRetries 0 none [] rfl

/-- C10: a request whose present query and provider strings are nonempty
but whose location carries latitude 0, longitude 0, or a missing or
empty address is rejected with the location error: truthiness treats a
zero coordinate like an absent field. -/
theorem zero_coordinate_location_rejected (q p : String) (loc : JsLocation)
    (hq : q ≠ "") (hp : p ≠ "")
    (h : loc.lat = some 0 ∨ loc.lng = some 0 ∨ loc.address = none ∨ loc.address = some "") :
    validateRequest { query := some q, provider := some p, location := some loc } =
      { isValid := false,
        error := some "Invalid location: latitude, longitude, and address are required" } := by
  obtain ⟨la, lg, ad⟩ := loc
  rcases h with h | h | h | h <;>
    simp_all [validateRequest, truthyStr, truthyNum, truthyLoc]

/-- Witness for C10 at a concrete request with latitude exactly 0. -/
theorem zero_coordinate_location_rejected_witness :
    validateRequest
        { query := some "back pain", provider := some "aetna",
          location := some { lat := some 0, lng := some 5, address := some "123 Main St" } } =
      { isValid := false,
        error := some "Invalid location: latitude, longitude, and address are required" } :=
  zero_coordinate_location_rejected "back pain" "aetna"
    { lat := some 0, lng := some 5, address := some "123 Main St" }
    (by decide) (by decide) (Or.inl rfl)

/-- C2 counterexample: with a sink that fails once after a successful LLM
response, a single completed planning call leaves two (duplicate)
entries in the action history, not one. -/
theorem history_duplicate_counterexample :
    getNextAction maxRetries dupAttempts [] =
      (Except.ok "ACT: click", ["ACT: click", "ACT: click"],
       [RetryEvent.attempt 0, RetryEvent.delay 1000, RetryEvent.attempt 1])
    ∧ ["ACT: click", "ACT: click"].length ≠ 1 :=
  ⟨rfl, by decide⟩

/-- C7 counterexample: when the diagnostic screenshot on the
error-recovery path throws, the error propagates out of the catch
block: the loop does not return to Observing, and the whole search
fails with the screenshot error (the session still being closed by the
finally block). -/
theorem screenshot_failure_counterexample :
    executeSearch maxRetries actionTimeout maxConsecutiveErrors oracleShot =
      some { result := Except.error "screenshot failed",
             finalState := { history := [], consecutiveErrors := 1, planCalls := 0,
                             acted := [], screenshots := 0 },
             extractInvoked := false, closeCalls := 1 }
    ∧ stepIter maxRetries actionTimeout maxConsecutiveErrors oShotFail initialLoopState =
        StepResult.fatal "screenshot failed"
          { history := [], consecutiveErrors := 1, planCalls := 0,
            acted := [], screenshots := 0 } :=
  ⟨rfl, rfl⟩

/-- C8 counterexample: with a progress sink that always fails, the
planning step does not complete successfully — `getNextAction` fails
with the composite error after three attempts, each of which appended a
duplicate history entry. -/
theorem sink_failure_counterexample :
    getNextAction maxRetries sinkFailPlan [] =
      (Except.error "Failed to get next action from LLM: stream closed",
       ["ACT: click", "ACT: click", "ACT: click"],
       [RetryEvent.attempt 0, RetryEvent.delay 1000, RetryEvent.attempt 1,
        RetryEvent.delay 2000, RetryEvent.attempt 2, RetryEvent.delay 3000]) :=
  rfl

/-- Exhaustive case analysis of one iteration's try block. -/
theorem iterBody_cases (mr t : Nat) (o : IterOracle) (s : LoopState) :
    (∃ e, o.observe = Except.error e ∧ iterBody mr t o s = (Except.error e, s))
    ∨ (∃ ps e h1 tr, o.observe = Except.ok ps ∧
        getNextAction mr o.plan s.history = (Except.error e, h1, tr) ∧
        iterBody mr t o s = (Except.error e, { s with history := h1 }))
    ∨ (∃ ps a h1 tr, o.observe = Except.ok ps ∧
        getNextAction mr o.plan s.history = (Except.ok a, h1, tr) ∧
        isCompletionAction a = true ∧
        iterBody mr t o s = (Except.ok TryOutcome.breakLoop,
          { s with history := h1, planCalls := s.planCalls + 1 }))
    ∨ (∃ ps a h1 tr e ds tr2, o.observe = Except.ok ps ∧
        getNextAction mr o.plan s.history = (Except.ok a, h1, tr) ∧
        isCompletionAction a = false ∧
        executeAction mr t o.act a = (Except.error e, ds, tr2) ∧
        iterBody mr t o s = (Except.error e,
          { s with history := h1, planCalls := s.planCalls + 1, acted := s.acted ++ ds }))
    ∨ (∃ ps a h1 tr ds tr2, o.observe = Except.ok ps ∧
        getNextAction mr o.plan s.history = (Except.ok a, h1, tr) ∧
        isCompletionAction a = false ∧
        executeAction mr t o.act a = (Except.ok (), ds, tr2) ∧
        iterBody mr t o s = (Except.ok TryOutcome.normal,
          { s with history := h1, planCalls := s.planCalls + 1,
                   acted := s.acted ++ ds, consecutiveErrors := 0 })) := by
  cases hobs : o.observe with
  | error e => exact Or.inl ⟨e, rfl, by simp [iterBody, hobs]⟩
  | ok ps =>
    rcases hg : getNextAction mr o.plan s.history with ⟨res, h1, tr⟩
    cases res with
    | error e =>
      exact Or.inr (Or.inl ⟨ps, e, h1, tr, rfl, rfl, by simp [iterBody, hobs, hg]⟩)
    | ok a =>
      cases hc : isCompletionAction a with
      | true =>
        exact Or.inr (Or.inr (Or.inl
          ⟨ps, a, h1, tr, rfl, rfl, hc, by simp [iterBody, hobs, hg, hc]⟩))
      | false =>
        rcases he : executeAction mr t o.act a with ⟨r2, ds, tr2⟩
        cases r2 with
        | error e2 =>
          exact Or.inr (Or.inr (Or.inr (Or.inl
            ⟨ps, a, h1, tr, e2, ds, tr2, rfl, rfl, hc, he,
             by simp [iterBody, hobs, hg, hc, he]⟩)))
        | ok u =>
          cases u
          exact Or.inr (Or.inr (Or.inr (Or.inr
            ⟨ps, a, h1, tr, ds, tr2, rfl, rfl, hc, he,
             by simp [iterBody, hobs, hg, hc, he]⟩)))

/-- The catch-free break path of an iteration, seen from `stepIter`. -/
theorem stepIter_of_body_break (mr t mce : Nat) (o : IterOracle) (s s1 : LoopState)
    (h : iterBody mr t o s = (Except.ok TryOutcome.breakLoop, s1)) :
    stepIter mr t mce o s = StepResult.toExtract s1 := by
  simp [stepIter, h]

/-- The successful path of an iteration, seen from `stepIter`. -/
theorem stepIter_of_body_normal (mr t mce : Nat) (o : IterOracle) (s s1 : LoopState)
    (h : iterBody mr t o s = (Except.ok TryOutcome.normal, s1)) :
    stepIter mr t mce o s = StepResult.next s1 := by
  simp [stepIter, h]

/-- The catch block of an iteration, seen from `stepIter`: increment the
counter, abort at the threshold, otherwise screenshot and continue —
with a screenshot failure propagating as a fatal error. -/
theorem stepIter_of_body_error (mr t mce : Nat) (o : IterOracle) (s s1 : LoopState)
    (e : String) (h : iterBody mr t o s = (Except.error e, s1)) :
    stepIter mr t mce o s =
      (if mce ≤ s1.consecutiveErrors + 1 then
        StepResult.fatal "Too many consecutive errors"
          { s1 with consecutiveErrors := s1.consecutiveErrors + 1 }
      else
        match o.screenshot with
        | Except.error e2 =>
          StepResult.fatal e2 { s1 with consecutiveErrors := s1.consecutiveErrors + 1 }
        | Except.ok _ =>
          StepResult.next { s1 with consecutiveErrors := s1.consecutiveErrors + 1,
                                    screenshots := s1.screenshots + 1 }) := by
  simp [stepIter, h]

/-- A fatal loop outcome never reaches extraction: `executeSearch`
returns the fatal error with extraction not invoked and one close. -/
theorem executeSearch_of_fatal (mr t mce : Nat) (oracle : SearchOracle) (m : String)
    (sf : LoopState) (hgoto : oracle.goto = Except.ok ())
    (hrun : runLoop mr t mce oracle.iters initialLoopState = LoopOutcome.fatal m sf) :
    executeSearch mr t mce oracle =
      some { result := Except.error m, finalState := sf,
             extractInvoked := false, closeCalls := 1 } := by
  simp [executeSearch, hgoto, hrun]

/-- C3: the consecutive-error counter is reset to zero exactly by a
successful action execution; every other transition keeps it or
increments it by one, and any strict decrease comes from the reset. If
an iteration error takes the counter to the threshold 3, the step is
the fatal abort, and a fatally aborted loop never invokes the Result
Extractor. -/
theorem consecutive_error_counter_policy :
    (∀ (o : IterOracle) (s s1 : LoopState),
        iterBody maxRetries actionTimeout o s = (Except.ok TryOutcome.normal, s1) →
        s1.consecutiveErrors = 0)
    ∧ (∀ (o : IterOracle) (s : LoopState),
        (stepState (stepIter maxRetries actionTimeout maxConsecutiveErrors o s)).consecutiveErrors = 0
        ∨ (stepState (stepIter maxRetries actionTimeout maxConsecutiveErrors o s)).consecutiveErrors
            = s.consecutiveErrors
        ∨ (stepState (stepIter maxRetries actionTimeout maxConsecutiveErrors o s)).consecutiveErrors
            = s.consecutiveErrors + 1)
    ∧ (∀ (o : IterOracle) (s : LoopState),
        (stepState (stepIter maxRetries actionTimeout maxConsecutiveErrors o s)).consecutiveErrors
            < s.consecutiveErrors →
        ∃ s1, iterBody maxRetries actionTimeout o s = (Except.ok TryOutcome.normal, s1) ∧
          stepIter maxRetries actionTimeout maxConsecutiveErrors o s = StepResult.next s1 ∧
          s1.consecutiveErrors = 0)
    ∧ (∀ (o : IterOracle) (s s1 : LoopState) (e : String),
        iterBody maxRetries actionTimeout o s = (Except.error e, s1) →
        maxConsecutiveErrors ≤ s1.consecutiveErrors + 1 →
        stepIter maxRetries actionTimeout maxConsecutiveErrors o s =
          StepResult.fatal "Too many consecutive errors"
            { s1 with consecutiveErrors := s1.consecutiveErrors + 1 })
    ∧ (∀ (oracle : SearchOracle) (m : String) (sf : LoopState),
        oracle.goto = Except.ok () →
        runLoop maxRetries actionTimeout maxConsecutiveErrors oracle.iters initialLoopState =
          LoopOutcome.fatal m sf →
        executeSearch maxRetries actionTimeout maxConsecutiveErrors oracle =
          some { result := Except.error m, finalState := sf,
                 extractInvoked := false, closeCalls := 1 }) := by
  have hreset : ∀ (o : IterOracle) (s s1 : LoopState),
      iterBody maxRetries actionTimeout o s = (Except.ok TryOutcome.normal, s1) →
      s1.consecutiveErrors = 0 := by
    intro o s s1 h
    rcases iterBody_cases maxRetries actionTimeout o s with
      ⟨e, _, hb⟩ | ⟨ps, e, h1, tr, _, _, hb⟩ | ⟨ps, a, h1, tr, _, _, _, hb⟩ |
      ⟨ps, a, h1, tr, e, ds, tr2, _, _, _, _, hb⟩ |
      ⟨ps, a, h1, tr, ds, tr2, _, _, _, _, hb⟩
    · rw [hb] at h; simp at h
    · rw [hb] at h; simp at h
    · rw [hb] at h; simp at h
    · rw [hb] at h; simp at h
    · rw [hb] at h
      simp only [Prod.mk.injEq] at h
      rw [← h.2]
  have herrstep : ∀ (o : IterOracle) (s s1 : LoopState) (e : String),
      iterBody maxRetries actionTimeout o s = (Except.error e, s1) →
      (stepState (stepIter maxRetries actionTimeout maxConsecutiveErrors o s)).consecutiveErrors
        = s1.consecutiveErrors + 1 := by
    intro o s s1 e hb
    rw [stepIter_of_body_error maxRetries actionTimeout maxConsecutiveErrors o s s1 e hb]
    split
    · simp [stepState]
    · split <;> simp [stepState]
  refine ⟨hreset, ?_, ?_, ?_, ?_⟩
  · intro o s
    rcases iterBody_cases maxRetries actionTimeout o s with
      ⟨e, _, hb⟩ | ⟨ps, e, h1, tr, _, _, hb⟩ | ⟨ps, a, h1, tr, _, _, _, hb⟩ |
      ⟨ps, a, h1, tr, e, ds, tr2, _, _, _, _, hb⟩ |
      ⟨ps, a, h1, tr, ds, tr2, _, _, _, _, hb⟩
    · exact Or.inr (Or.inr (by rw [herrstep o s s e hb]))
    · exact Or.inr (Or.inr (by rw [herrstep o s _ e hb]))
    · refine Or.inr (Or.inl ?_)
      rw [stepIter_of_body_break maxRetries actionTimeout maxConsecutiveErrors o s _ hb]
      simp [stepState]
    · exact Or.inr (Or.inr (by rw [herrstep o s _ e hb]))
    · refine Or.inl ?_
      rw [stepIter_of_body_normal maxRetries actionTimeout maxConsecutiveErrors o s _ hb]
      simp [stepState]
  · intro o s hlt
    rcases iterBody_cases maxRetries actionTimeout o s with
      ⟨e, _, hb⟩ | ⟨ps, e, h1, tr, _, _, hb⟩ | ⟨ps, a, h1, tr, _, _, _, hb⟩ |
      ⟨ps, a, h1, tr, e, ds, tr2, _, _, _, _, hb⟩ |
      ⟨ps, a, h1, tr, ds, tr2, _, _, _, _, hb⟩
    · rw [herrstep o s s e hb] at hlt
      exact absurd hlt (by omega)
    · rw [herrstep o s _ e hb] at hlt
      simp at hlt
    · rw [stepIter_of_body_break maxRetries actionTimeout maxConsecutiveErrors o s _ hb] at hlt
      simp [stepState] at hlt
    · rw [herrstep o s _ e hb] at hlt
      simp at hlt
    · exact ⟨_, hb,
        stepIter_of_body_normal maxRetries actionTimeout maxConsecutiveErrors o s _ hb, rfl⟩
  · intro o s s1 e hb hth
    rw [stepIter_of_body_error maxRetries actionTimeout maxConsecutiveErrors o s s1 e hb]
    simp [hth]
  · intro oracle m sf hgoto hrun
    exact executeSearch_of_fatal maxRetries actionTimeout maxConsecutiveErrors oracle m sf hgoto hrun

/-- Witness for C3: a third consecutive observation failure aborts the
loop fatally at the threshold. -/
theorem consecutive_error_counter_policy_witness :
    stepIter maxRetries actionTimeout maxConsecutiveErrors cwObserveFail
        { history := [], consecutiveErrors := 2, planCalls := 0, acted := [], screenshots := 0 } =
      StepResult.fatal "Too many consecutive errors"
        { history := [], consecutiveErrors := 3, planCalls := 0, acted := [], screenshots := 0 } :=
  consecutive_error_counter_policy.2.2.2.1 cwObserveFail
    { history := [], consecutiveErrors := 2, planCalls := 0, acted := [], screenshots := 0 }
    { history := [], consecutiveErrors := 2, planCalls := 0, acted := [], screenshots := 0 }
    "observe failed" rfl (by decide)

/-- C4: when the planning step returns an action string containing
"complete" or "finished" (case-insensitive), the iteration breaks to
extraction without executing the action — the executed-action log is
unchanged — and a search starting with such an iteration invokes the
extractor directly. -/
theorem completion_marker_skips_execution :
    (∀ (o : IterOracle) (s : LoopState) (ps a : String) (h1 : List String)
       (tr : List RetryEvent),
        o.observe = Except.ok ps →
        getNextAction maxRetries o.plan s.history = (Except.ok a, h1, tr) →
        isCompletionAction a = true →
        stepIter maxRetries actionTimeout maxConsecutiveErrors o s =
          StepResult.toExtract { s with history := h1, planCalls := s.planCalls + 1 })
    ∧ (∀ (o : IterOracle) (rest : List IterOracle) (ext : Except String (List Provider))
         (ps a : String) (h1 : List String) (tr : List RetryEvent),
        o.observe = Except.ok ps →
        getNextAction maxRetries o.plan initialLoopState.history = (Except.ok a, h1, tr) →
        isCompletionAction a = true →
        executeSearch maxRetries actionTimeout maxConsecutiveErrors
            { goto := Except.ok (), iters := o :: rest, extract := ext } =
          some { result := ext,
                 finalState := { history := h1, consecutiveErrors := 0, planCalls := 1,
                                 acted := [], screenshots := 0 },
                 extractInvoked := true, closeCalls := 1 }) := by
  have hbody : ∀ (o : IterOracle) (s : LoopState) (ps a : String) (h1 : List String)
      (tr : List RetryEvent),
      o.observe = Except.ok ps →
      getNextAction maxRetries o.plan s.history = (Except.ok a, h1, tr) →
      isCompletionAction a = true →
      iterBody maxRetries actionTimeout o s =
        (Except.ok TryOutcome.breakLoop,
          { s with history := h1, planCalls := s.planCalls + 1 }) := by
    intro o s ps a h1 tr hobs hg hc
    simp [iterBody, hobs, hg, hc]
  constructor
  · intro o s ps a h1 tr hobs hg hc
    exact stepIter_of_body_break maxRetries actionTimeout maxConsecutiveErrors o s _
      (hbody o s ps a h1 tr hobs hg hc)
  · intro o rest ext ps a h1 tr hobs hg hc
    have hstep := stepIter_of_body_break maxRetries actionTimeout maxConsecutiveErrors o
      initialLoopState _ (hbody o initialLoopState ps a h1 tr hobs hg hc)
    simp only [executeSearch, runLoop]
    rw [hstep]
    rfl

/-- Witness for C4: a planner that answers "CLOSE: Search complete"
makes the loop extract immediately with no action executed. -/
theorem completion_marker_skips_execution_witness :
    executeSearch maxRetries actionTimeout maxConsecutiveErrors
        { goto := Except.ok (), iters := [oComplete], extract := Except.ok [] } =
      some { result := Except.ok [],
             finalState := { history := ["CLOSE: Search complete"], consecutiveErrors := 0,
                             planCalls := 1, acted := [], screenshots := 0 },
             extractInvoked := true, closeCalls := 1 } :=
  completion_marker_skips_execution.2 oComplete [] (Except.ok [])
    "results page" "CLOSE: Search complete" ["CLOSE: Search complete"]
    [RetryEvent.attempt 0] rfl rfl rfl

/-- C7 (amended): a failure of the diagnostic screenshot on the
error-recovery path is not ignored — it propagates out of the catch
block as a fatal error ending the loop, with the session still closed
by the finally block; only a successful capture lets the loop return to
Observing. -/
theorem screenshot_failure_propagates :
    (∀ (o : IterOracle) (s s1 : LoopState) (e e2 : String),
        iterBody maxRetries actionTimeout o s = (Except.error e, s1) →
        s1.consecutiveErrors + 1 < maxConsecutiveErrors →
        o.screenshot = Except.error e2 →
        stepIter maxRetries actionTimeout maxConsecutiveErrors o s =
          StepResult.fatal e2 { s1 with consecutiveErrors := s1.consecutiveErrors + 1 })
    ∧ (∀ (o : IterOracle) (s s1 : LoopState) (e : String),
        iterBody maxRetries actionTimeout o s = (Except.error e, s1) →
        s1.consecutiveErrors + 1 < maxConsecutiveErrors →
        o.screenshot = Except.ok () →
        stepIter maxRetries actionTimeout maxConsecutiveErrors o s =
          StepResult.next { s1 with consecutiveErrors := s1.consecutiveErrors + 1,
                                    screenshots := s1.screenshots + 1 })
    ∧ (∀ (oracle : SearchOracle) (m : String) (sf : LoopState),
        oracle.goto = Except.ok () →
        runLoop maxRetries actionTimeout maxConsecutiveErrors oracle.iters initialLoopState =
          LoopOutcome.fatal m sf →
        executeSearch maxRetries actionTimeout maxConsecutiveErrors oracle =
          some { result := Except.error m, finalState := sf,
                 extractInvoked := false, closeCalls := 1 }) := by
  refine ⟨?_, ?_, ?_⟩
  · intro o s s1 e e2 hb hlt hshot
    rw [stepIter_of_body_error maxRetries actionTimeout maxConsecutiveErrors o s s1 e hb]
    rw [if_neg (by omega), hshot]
  · intro o s s1 e hb hlt hshot
    rw [stepIter_of_body_error maxRetries actionTimeout maxConsecutiveErrors o s s1 e hb]
    rw [if_neg (by omega), hshot]
  · intro oracle m sf hgoto hrun
    exact executeSearch_of_fatal maxRetries actionTimeout maxConsecutiveErrors oracle m sf hgoto hrun

/-- Witness for C7: a first-iteration observation failure whose
screenshot also fails turns into a fatal abort carrying the screenshot
error. -/
theorem screenshot_failure_propagates_witness :
    stepIter maxRetries actionTimeout maxConsecutiveErrors oShotFail initialLoopState =
      StepResult.fatal "screenshot failed"
        { history := [], consecutiveErrors := 1, planCalls := 0, acted := [],
          screenshots := 0 } :=
  screenshot_failure_propagates.1 oShotFail initialLoopState initialLoopState
    "observe failed" "screenshot failed" rfl (by decide) rfl

/-- C8 (amended): a failing onAction progress sink fails the awaited
planning attempt, so the planning step does not complete: after three
attempts `getNextAction` fails with the composite error, each attempt
having appended a duplicate history entry. The loop survives such a
failure only through its iteration-level error handling, returning to
Observing while the consecutive-error counter stays below 3. -/
theorem sink_failure_fails_planning_step :
    (∀ (rep : PlannerReply) (emsg : String) (hist : List String),
        getNextAction maxRetries (fun _ => { llm := Except.ok rep, sink := Except.error emsg })
            hist =
          (Except.error ("Failed to get next action from LLM: " ++ emsg),
           hist ++ [toolStr rep.tool ++ ": " ++ rep.instruction,
                    toolStr rep.tool ++ ": " ++ rep.instruction,
                    toolStr rep.tool ++ ": " ++ rep.instruction],
           [RetryEvent.attempt 0, RetryEvent.delay 1000, RetryEvent.attempt 1,
            RetryEvent.delay 2000, RetryEvent.attempt 2, RetryEvent.delay 3000]))
    ∧ (∀ (o : IterOracle) (s s1 : LoopState) (e : String),
        iterBody maxRetries actionTimeout o s = (Except.error e, s1) →
        s1.consecutiveErrors + 1 < maxConsecutiveErrors →
        o.screenshot = Except.ok () →
        stepIter maxRetries actionTimeout maxConsecutiveErrors o s =
          StepResult.next { s1 with consecutiveErrors := s1.consecutiveErrors + 1,
                                    screenshots := s1.screenshots + 1 }) := by
  constructor
  · intro rep emsg hist
    simp [getNextAction, retryOperation, retryGo, planOp, lastMsg, maxRetries]
  · intro o s s1 e hb hlt hshot
    rw [stepIter_of_body_error maxRetries actionTimeout maxConsecutiveErrors o s s1 e hb]
    rw [if_neg (by omega), hshot]

/-- Witness for C8: an iteration whose sink always fails increments the
error counter and loops back to Observing. -/
theorem sink_failure_fails_planning_step_witness :
    stepIter maxRetries actionTimeout maxConsecutiveErrors oSinkIter initialLoopState =
      StepResult.next
        { history := ["ACT: click", "ACT: click", "ACT: click"], consecutiveErrors := 1,
          planCalls := 0, acted := [], screenshots := 1 } :=
  sink_failure_fails_planning_step.2 oSinkIter initialLoopState
    { history := ["ACT: click", "ACT: click", "ACT: click"], consecutiveErrors := 0,
      planCalls := 0, acted := [], screenshots := 0 }
    "Failed to get next action from LLM: stream closed" rfl (by decide) rfl

/-- With an always-succeeding sink, a planning retry run either fails
leaving the history unchanged, or succeeds appending exactly the one
returned well-formed action. -/
theorem planRetry_sink_ok (att : Nat → PlanAttempt) (msg : String)
    (hs : ∀ i, (att i).sink = Except.ok ()) :
    ∀ (n i : Nat) (last : Option String) (hist : List String),
      (∃ e tr, retryGo (planOp att) msg n i last hist = (Except.error e, hist, tr))
      ∨ (∃ tl instr tr, retryGo (planOp att) msg n i last hist =
          (Except.ok (toolStr tl ++ ": " ++ instr),
           hist ++ [toolStr tl ++ ": " ++ instr], tr)) := by
  intro n
  induction n with
  | zero => intro i last hist; exact Or.inl ⟨_, _, rfl⟩
  | succ n ih =>
    intro i last hist
    cases hl : (att i).llm with
    | error e =>
      rcases ih (i + 1) (some e) hist with ⟨e2, tr, hrec⟩ | ⟨tl, instr, tr, hrec⟩
      · refine Or.inl ⟨e2, RetryEvent.attempt i :: RetryEvent.delay (1000 * (i + 1)) :: tr, ?_⟩
        simp [retryGo, planOp, hl, hrec]
      · refine Or.inr
          ⟨tl, instr, RetryEvent.attempt i :: RetryEvent.delay (1000 * (i + 1)) :: tr, ?_⟩
        simp [retryGo, planOp, hl, hrec]
    | ok r =>
      refine Or.inr ⟨r.tool, r.instruction, [RetryEvent.attempt i], ?_⟩
      simp [retryGo, planOp, hl, hs i]

/-- A successful planning retry run always returns an action that is a
member of the final history, whatever the sink outcomes were. -/
theorem planRetry_ok_mem (att : Nat → PlanAttempt) (msg : String) :
    ∀ (n i : Nat) (last : Option String) (hist : List String) (a : String)
      (h1 : List String) (tr : List RetryEvent),
      retryGo (planOp att) msg n i last hist = (Except.ok a, h1, tr) → a ∈ h1 := by
  intro n
  induction n with
  | zero =>
    intro i last hist a h1 tr h
    simp [retryGo] at h
  | succ n ih =>
    intro i last hist a h1 tr h
    cases hl : (att i).llm with
    | error e =>
      rcases hrec : retryGo (planOp att) msg n (i + 1) (some e) hist with ⟨res2, h2, tr2⟩
      simp only [retryGo, planOp, hl, hrec, Prod.mk.injEq] at h
      obtain ⟨hres, hh, -⟩ := h
      subst hres
      subst hh
      exact ih (i + 1) (some e) hist a h2 tr2 hrec
    | ok r =>
      cases hsk : (att i).sink with
      | ok u =>
        cases u
        simp only [retryGo, planOp, hl, hsk, Prod.mk.injEq, Except.ok.injEq] at h
        obtain ⟨hres, hh, -⟩ := h
        subst hres
        subst hh
        simp
      | error e =>
        rcases hrec : retryGo (planOp att) msg n (i + 1) (some e)
            (hist ++ [toolStr r.tool ++ ": " ++ r.instruction]) with ⟨res2, h2, tr2⟩
        simp only [retryGo, planOp, hl, hsk, hrec, Prod.mk.injEq] at h
        obtain ⟨hres, hh, -⟩ := h
        subst hres
        subst hh
        exact ih (i + 1) (some e) _ a h2 tr2 hrec

/-- One loop iteration preserves the history/planning-call invariant
when every sink call of its planner oracle succeeds. -/
theorem stepIter_stateGood (mr t mce : Nat) (o : IterOracle) (s : LoopState)
    (hs : ∀ i, (o.plan i).sink = Except.ok ()) (hg : stateGood s) :
    stateGood (stepState (stepIter mr t mce o s)) := by
  have herr : ∀ (s1 : LoopState) (e : String),
      iterBody mr t o s = (Except.error e, s1) → stateGood s1 →
      stateGood (stepState (stepIter mr t mce o s)) := by
    intro s1 e hb hg1
    rw [stepIter_of_body_error mr t mce o s s1 e hb]
    split
    · exact hg1
    · split
      · exact hg1
      · exact hg1
  have hplan := planRetry_sink_ok o.plan "Failed to get next action from LLM" hs mr 0 none
    s.history
  have hgood1 : ∀ (a : String) (h1 : List String) (tr : List RetryEvent),
      getNextAction mr o.plan s.history = (Except.ok a, h1, tr) →
      stateGood { s with history := h1, planCalls := s.planCalls + 1 } := by
    intro a h1 tr hgna
    simp only [getNextAction, retryOperation] at hgna
    rcases hplan with ⟨e2, tr2, hsh⟩ | ⟨tl, instr, tr2, hsh⟩
    · rw [hsh] at hgna
      simp at hgna
    · rw [hsh] at hgna
      simp only [Prod.mk.injEq] at hgna
      obtain ⟨-, hh, -⟩ := hgna
      subst hh
      refine ⟨?_, ?_⟩
      · simp [hg.1]
      · intro x hx
        rcases List.mem_append.mp hx with hx | hx
        · exact hg.2 x hx
        · exact ⟨tl, instr, by simpa using hx⟩
  rcases iterBody_cases mr t o s with
    ⟨e, _, hb⟩ | ⟨ps, e, h1, tr, _, hgna, hb⟩ | ⟨ps, a, h1, tr, _, hgna, _, hb⟩ |
    ⟨ps, a, h1, tr, e, ds, tr2, _, hgna, _, _, hb⟩ |
    ⟨ps, a, h1, tr, ds, tr2, _, hgna, _, _, hb⟩
  · exact herr s e hb hg
  · refine herr _ e hb ?_
    simp only [getNextAction, retryOperation] at hgna
    rcases hplan with ⟨e2, tr2, hsh⟩ | ⟨tl, instr, tr2, hsh⟩
    · rw [hsh] at hgna
      simp only [Prod.mk.injEq] at hgna
      obtain ⟨-, hh, -⟩ := hgna
      subst hh
      exact hg
    · rw [hsh] at hgna
      simp at hgna
  · rw [stepIter_of_body_break mr t mce o s _ hb]
    exact hgood1 a h1 tr hgna
  · refine herr _ e hb ?_
    exact (hgood1 a h1 tr hgna : stateGood _)
  · rw [stepIter_of_body_normal mr t mce o s _ hb]
    exact (hgood1 a h1 tr hgna : stateGood _)

/-- The loop preserves the history/planning-call invariant when every
sink call in its oracle trace succeeds. -/
theorem runLoop_stateGood (mr t mce : Nat) :
    ∀ (iters : List IterOracle) (s : LoopState),
      (∀ o ∈ iters, ∀ i, (o.plan i).sink = Except.ok ()) → stateGood s →
      stateGood (loopFinalState (runLoop mr t mce iters s)) := by
  intro iters
  induction iters with
  | nil => intro s hsk hg; exact hg
  | cons o rest ih =>
    intro s hsk hg
    have hgs := stepIter_stateGood mr t mce o s (fun i => hsk o (by simp) i) hg
    cases hstep : stepIter mr t mce o s with
    | next s1 =>
      rw [hstep] at hgs
      simp only [runLoop, hstep]
      exact ih s1 (fun o2 ho2 i => hsk o2 (by simp [ho2]) i) hgs
    | toExtract s1 =>
      rw [hstep] at hgs
      simp only [runLoop, hstep]
      exact hgs
    | fatal m s1 =>
      rw [hstep] at hgs
      simp only [runLoop, hstep]
      exact hgs

/-- C2 (amended): each successful LLM planning response appends exactly
one well-formed "TOOL: instruction" entry, before the sink call and
before execution. When every progress-sink call succeeds, the history
holds exactly one entry per completed planning call throughout the
loop, every entry well-formed; and whenever an iteration reaches
execution, the planned action is already in the history — also when
that execution then fails. A sink failure after a successful LLM
response instead leaves a duplicate entry for one completed call. -/
theorem history_tracks_planning_calls :
    (∀ (iters : List IterOracle) (s : LoopState),
        (∀ o ∈ iters, ∀ i, (o.plan i).sink = Except.ok ()) →
        s.history.length = s.planCalls →
        (∀ a ∈ s.history, wellFormedAction a) →
        (loopFinalState (runLoop maxRetries actionTimeout maxConsecutiveErrors
            iters s)).history.length
          = (loopFinalState (runLoop maxRetries actionTimeout maxConsecutiveErrors
              iters s)).planCalls
        ∧ ∀ a ∈ (loopFinalState (runLoop maxRetries actionTimeout maxConsecutiveErrors
            iters s)).history, wellFormedAction a)
    ∧ (∀ (o : IterOracle) (s : LoopState) (ps a : String) (h1 : List String)
         (tr : List RetryEvent) (r : Except String TryOutcome) (s1 : LoopState),
        o.observe = Except.ok ps →
        getNextAction maxRetries o.plan s.history = (Except.ok a, h1, tr) →
        isCompletionAction a = false →
        iterBody maxRetries actionTimeout o s = (r, s1) →
        a ∈ s1.history) := by
  constructor
  · intro iters s hsk hlen hwf
    exact runLoop_stateGood maxRetries actionTimeout maxConsecutiveErrors iters s hsk
      ⟨hlen, hwf⟩
  · intro o s ps a h1 tr r s1 hobs hgna hc hbody
    have hmem : a ∈ h1 := by
      simp only [getNextAction, retryOperation] at hgna
      exact planRetry_ok_mem o.plan _ maxRetries 0 none s.history a h1 tr hgna
    rcases he : executeAction maxRetries actionTimeout o.act a with ⟨r2, ds, tr2⟩
    simp only [iterBody, hobs, hgna, hc, he] at hbody
    cases r2 with
    | error e =>
      simp only [Bool.false_eq_true, if_false, Prod.mk.injEq] at hbody
      obtain ⟨-, hs1⟩ := hbody
      rw [← hs1]
      exact hmem
    | ok u =>
      cases u
      simp only [Bool.false_eq_true, if_false, Prod.mk.injEq] at hbody
      obtain ⟨-, hs1⟩ := hbody
      rw [← hs1]
      exact hmem

/-- Witness for C2: on a one-iteration trace with succeeding sinks the
final history length equals the number of completed planning calls. -/
theorem history_tracks_planning_calls_witness :
    (loopFinalState (runLoop maxRetries actionTimeout maxConsecutiveErrors
        [oComplete] initialLoopState)).history.length
      = (loopFinalState (runLoop maxRetries actionTimeout maxConsecutiveErrors
          [oComplete] initialLoopState)).planCalls :=
  (history_tracks_planning_calls.1 [oComplete] initialLoopState
    (by intro o2 ho2 i; simp only [List.mem_singleton] at ho2; subst ho2; rfl)
    rfl (by intro a ha; simp [initialLoopState] at ha)).1

/-- C1 (amended): the session teardown runs exactly once on every exit
path of `executeSearch` — normal completion, the consecutive-error
abort, extraction failure, and exceptions inside `executeSearch`
including the initial navigation — but an exception raised during
`init` occurs before `executeSearch` starts, and on that path the
teardown never runs. -/
theorem teardown_exactly_once_amended :
    (∀ (oracle : SearchOracle) (run : SearchRun),
        executeSearch maxRetries actionTimeout maxConsecutiveErrors oracle = some run →
        run.closeCalls = 1)
    ∧ (∀ (e : String) (oracle : SearchOracle),
        runSearchProcess (Except.error e) maxRetries actionTimeout maxConsecutiveErrors
            oracle =
          some (Except.error "Failed to initialize web agent", 0)) := by
  constructor
  · intro oracle run h
    cases hgoto : oracle.goto with
    | error e =>
      simp only [executeSearch, hgoto, Option.some.injEq] at h
      rw [← h]
    | ok u =>
      cases u
      cases hrun : runLoop maxRetries actionTimeout maxConsecutiveErrors oracle.iters
          initialLoopState with
      | fuelOut s1 => simp [executeSearch, hgoto, hrun] at h
      | fatal m s1 =>
        simp only [executeSearch, hgoto, hrun, Option.some.injEq] at h
        rw [← h]
      | extract s1 =>
        simp only [executeSearch, hgoto, hrun, Option.some.injEq] at h
        rw [← h]
  · intro e oracle
    rfl

/-- Witness for C1: a run whose initial navigation fails still closes
the session exactly once. -/
theorem teardown_exactly_once_amended_witness :
    ({ result := Except.error "goto failed", finalState := initialLoopState,
       extractInvoked := false, closeCalls := 1 } : SearchRun).closeCalls = 1 :=
  teardown_exactly_once_amended.1 trivOracle
    { result := Except.error "goto failed", finalState := initialLoopState,
      extractInvoked := false, closeCalls := 1 } rfl

/-- C1 counterexample: an exception raised during `init` happens before
`executeSearch` is ever called, so on that exit path the session
teardown runs zero times, not once. -/
theorem teardown_init_counterexample :
    runSearchProcess (Except.error "stagehand init failed") maxRetries actionTimeout
        maxConsecutiveErrors trivOracle =
      some (Except.error "Failed to initialize web agent", 0)
    ∧ (0 : Nat) ≠ 1 :=
  ⟨rfl, by decide⟩

end CareNav
